import Mathlib

/-!
Verification of the scene-object layer of the compas repository
(src/compas/scene/sceneobject.py) and of the polyhedron geometry test
(tests/compas/geometry/test_polyhedron.py).

The Python class `SceneObject` is embedded shallowly: its per-object state
becomes the structure `SOFields`, the scene tree becomes the inductive
`SceneObject` (fields plus an ordered list of children, mirroring the
TreeNode composition), and each method or property becomes a Lean function
on that state.  Exceptions raised by the Python code become `Except`
values.  External collaborators of this slice (compas.geometry
Transformation/Frame, compas.colors Color, the drawing backend) are not
part of the source excerpt; they are modelled from the specification,
each such definition carries a doc comment saying so.
-/

namespace Compas

/-- Modelled from the spec: `compas.geometry.Transformation` is an external
opaque value type supporting composition (`__mul__`) with an identity
default constructor (`Transformation()`).  It is embedded as a 4 x 4
rational matrix, whose multiplication is the genuinely non-commutative
monoid the source composes with `reduce(mul, ...)`. -/
abbrev Transformation := Matrix (Fin 4) (Fin 4) ℚ

/-- Modelled from the spec: `Transformation()` "returns an identity
transformation". -/
def Transformation.identity : Transformation := 1

/-- Modelled from the spec: `compas.geometry.Frame` is an external opaque
value type whose only use in this slice is conversion to a transformation
(`Transformation.from_frame`); it is embedded as a carrier of the matrix
that conversion yields. -/
structure Frame where
  mat : Transformation

/-- Modelled from the spec: each collected frame is "converted to a
transformation" via `Transformation.from_frame`. -/
def Transformation.from_frame (f : Frame) : Transformation := f.mat

/-- Modelled from the spec: `compas.colors.Color` is an external opaque
RGB-like value type "with lightness classification and lighten/darken
derivation"; embedded with integer channels ranging over 0..255. -/
structure Color where
  r : ℤ
  g : ℤ
  b : ℤ
deriving DecidableEq, Repr

/-- Modelled from the spec: the Color value's "own light/dark
determination"; any concrete classification works for this slice, here a
color is light when its average channel exceeds half of 255. -/
def Color.is_light (c : Color) : Bool := decide (382 < c.r + c.g + c.b)

/-- Modelled from the spec: `darkened(percent)` derivation of a Color —
each channel scaled down by the given percentage. -/
def Color.darkened (c : Color) (percent : ℤ) : Color :=
  ⟨c.r * (100 - percent) / 100, c.g * (100 - percent) / 100,
    c.b * (100 - percent) / 100⟩

/-- Modelled from the spec: `lightened(percent)` derivation of a Color —
each channel moved toward 255 by the given percentage of the gap. -/
def Color.lightened (c : Color) (percent : ℤ) : Color :=
  ⟨c.r + (255 - c.r) * percent / 100, c.g + (255 - c.g) * percent / 100,
    c.b + (255 - c.b) * percent / 100⟩

/-- Modelled from the spec: "construction from arbitrary inputs via a
coercion operation" (`Color.coerce`); on values that already are colors it
is the identity, which is the only case this slice exercises. -/
def Color.coerce (c : Color) : Color := c

/-- Modelled from the spec: the class-level default color returned by the
`color` descriptor when no explicit value was ever set. -/
def Color.classDefault : Color := ⟨0, 0, 0⟩

/-- Modelled from the spec: a domain item is opaque; the scene object only
reads its `name` (sceneobject.py line 90) and its `guid` identity. -/
structure Item where
  name : String
  guid : String
deriving DecidableEq, Repr

/-- The per-object state of `SceneObject.__init__` (sceneobject.py lines
87-104): name, context, `_guids`, `_frame`, `_transformation`,
`_contrastcolor`, the color stored by the `ColorAttribute` descriptor,
opacity and the show flag.  `show` is a Lean keyword, hence the field
`show_`. -/
structure SOFields where
  name : String
  context : Option String
  _guids : Option (List String)
  frame : Option Frame
  transformation : Option Transformation
  _contrastcolor : Option Color
  _color : Option Color
  opacity : ℚ
  show_ : Bool

/-- `SceneObject.__init__` (sceneobject.py lines 87-104) with the
constructor's keyword arguments.  `name or item.name` follows Python
truthiness: an absent or empty name falls back to the item's name.
`self.color = color or self.color` stores the given color, or the
descriptor's class default when none is given; `_guids` and
`_contrastcolor` start unset. -/
def SceneObject.init (item : Item) (name : Option String) (color : Option Color)
    (opacity : ℚ) (show_ : Bool) (frame : Option Frame)
    (transformation : Option Transformation) (context : Option String) : SOFields :=
  { name :=
      match name with
      | some n => if n = "" then item.name else n
      | none => item.name
    context := context
    _guids := none
    frame := frame
    transformation := transformation
    _contrastcolor := none
    _color := some (Color.coerce (color.getD Color.classDefault))
    opacity := opacity
    show_ := show_ }

/-- Modelled from the spec: the `ColorAttribute` descriptor's getter —
"Getting with no explicit value returns the class default." -/
def SOFields.colorGet (f : SOFields) : Color := f._color.getD Color.classDefault

/-- Modelled from the spec: the `ColorAttribute` descriptor's setter —
"an explicit setter that validates/coerces its input and invalidates
dependent caches (contrastColor)". -/
def SOFields.setColor (f : SOFields) (c : Color) : SOFields :=
  { f with _color := some (Color.coerce c), _contrastcolor := none }

/-- The `guids` property (sceneobject.py lines 129-132):
`return self._guids or []`, i.e. the stored handle list, or the empty
list when `_guids` is unset (`None` and the empty list coincide on `[]`). -/
def SOFields.guids (f : SOFields) : List String := f._guids.getD []

/-- The `contrastcolor` property getter (sceneobject.py lines 174-182):
when the cache `_contrastcolor` is unset, compute a 50 percent darkened
color if the current color is light, a 50 percent lightened one otherwise,
and memoize it; return the cached value.  The pair is (returned color,
state after the read). -/
def SOFields.contrastcolorGet (f : SOFields) : Color × SOFields :=
  match f._contrastcolor with
  | some cached => (cached, f)
  | none =>
    let c :=
      if (f.colorGet).is_light then (f.colorGet).darkened 50
      else (f.colorGet).lightened 50
    (c, { f with _contrastcolor := some c })

/-- The `contrastcolor` property setter (sceneobject.py lines 184-187):
stores the coerced color into the cache directly. -/
def SOFields.contrastcolorSet (f : SOFields) (c : Color) : SOFields :=
  { f with _contrastcolor := some (Color.coerce c) }

/-- `clear` (sceneobject.py lines 248-251): call the backend clear
operation with the current `guids`, then reset `_guids` to `None`.  The
result pairs the new state with the handle list passed to the backend. -/
def SOFields.clear (f : SOFields) : SOFields × List String :=
  ({ f with _guids := none }, f.guids)

/-- Modelled from the spec: `draw` is abstract in the base class;
"Implementations are expected to call into the external drawing backend
and store returned handles into `guids`."  The handles the backend
returned are a parameter. -/
def SOFields.draw (f : SOFields) (handles : List String) : SOFields :=
  { f with _guids := some handles }

/-- An ancestor node as seen by the `worldtransformation` walk: its
optional local frame and whether it is the tree's root (`TreeNode.is_root`,
true exactly for the node with no parent). -/
structure AncNode where
  frame : Option Frame
  is_root : Bool

/-- The frame-collecting loop of `worldtransformation` (sceneobject.py
lines 157-162): starting from `self.parent`, walk upward while the node
exists and is not the root, appending each visited node's frame when it is
set.  The argument lists the ancestors nearest-first. -/
def collect_frame_stack : List AncNode → List Frame
  | [] => []
  | p :: rest =>
    if p.is_root then []
    else
      match p.frame with
      | some f => f :: collect_frame_stack rest
      | none => collect_frame_stack rest

/-- `functools.reduce(mul, ...)` seeded with the list's head: a left fold
by multiplication. -/
def reduce_mul : Transformation → List Transformation → Transformation
  | m, [] => m
  | m, x :: xs => reduce_mul (m * x) xs

/-- The `worldtransformation` property (sceneobject.py lines 154-172):
convert the collected frame stack to matrices, reduce the reversed list by
multiplication when non-empty (identity otherwise), then right-multiply by
the object's own transformation when set. -/
def SOFields.worldtransformation (f : SOFields) (ancestors : List AncNode) :
    Transformation :=
  let matrices := (collect_frame_stack ancestors).map Transformation.from_frame
  let w :=
    match matrices.reverse with
    | [] => Transformation.identity
    | m :: rest => reduce_mul m rest
  match f.transformation with
  | some t => w * t
  | none => w

/-- A scene object in its tree: its own fields and the ordered sequence of
child scene objects (the TreeNode composition of `SceneObject(TreeNode)`). -/
inductive SceneObject where
  | mk (fields : SOFields) (children : List SceneObject)

/-- The per-object fields of a scene-tree node. -/
def SceneObject.fieldsOf : SceneObject → SOFields
  | .mk fs _ => fs

/-- The ordered children of a scene-tree node. -/
def SceneObject.childrenOf : SceneObject → List SceneObject
  | .mk _ cs => cs

/-- Modelled from the spec: `TreeNode.add` appends the node to the ordered
child sequence (`super(SceneObject, self).add(sceneobject)`,
sceneobject.py line 240). -/
def SceneObject.attach : SceneObject → SceneObject → SceneObject
  | .mk fs cs, child => .mk fs (cs ++ [child])

/-- The context-mismatch exception of `add` (sceneobject.py lines 232-236):
"Child context should be the same as parent context: {} != {}", carrying
the explicitly supplied context and the parent's context. -/
structure ContextMismatch where
  child_context : Option String
  parent_context : Option String
deriving DecidableEq, Repr

/-- The argument of `add`: either something that already is a SceneObject,
or a raw item together with the `context` entry of `kwargs` when the
caller supplied one (sceneobject.py line 230 checks membership of the key,
so an explicit `context=None` is distinct from an absent one). -/
inductive AddArg where
  | sceneObject (so : SceneObject)
  | item (it : Item) (kwargsContext : Option (Option String))

/-- `add` (sceneobject.py lines 207-241): an argument that is already a
SceneObject is attached directly; for a raw item, an explicitly supplied
`context` differing from the parent's raises the context-mismatch
exception, otherwise a scene object is constructed for the item with the
parent's context (remaining constructor arguments at their `__init__`
defaults) and attached.  On success the result pairs the updated parent
with the (possibly newly constructed) child, mirroring the return value. -/
def SceneObject.add (parent : SceneObject) (arg : AddArg) :
    Except ContextMismatch (SceneObject × SceneObject) :=
  match arg with
  | .sceneObject so => .ok (parent.attach so, so)
  | .item it kw =>
    match kw with
    | some ctx =>
      if ctx ≠ parent.fieldsOf.context then
        .error ⟨ctx, parent.fieldsOf.context⟩
      else
        let so : SceneObject :=
          .mk (SceneObject.init it none none 1 true none none parent.fieldsOf.context) []
        .ok (parent.attach so, so)
    | none =>
      let so : SceneObject :=
        .mk (SceneObject.init it none none 1 true none none parent.fieldsOf.context) []
      .ok (parent.attach so, so)

/-- The parent as the caller of `add` sees it afterwards: updated on
success, untouched when the call raised. -/
def SceneObject.addOrKeep (parent : SceneObject) (arg : AddArg) : SceneObject :=
  match parent.add arg with
  | .ok (p, _) => p
  | .error _ => parent

/-- `clear` lifted to a tree node (sceneobject.py lines 248-251): only the
node's own fields are touched. -/
def SceneObject.clear : SceneObject → SceneObject × List String
  | .mk fs cs =>
    match fs.clear with
    | (fs2, handed) => (.mk fs2 cs, handed)

/-- The error of `SceneObject.__from_data__` (sceneobject.py lines
115-118): `TypeError("Serialisation outside Scene not allowed.")`. -/
inductive SerializationError where
  | notPermitted
deriving DecidableEq, Repr

/-- `SceneObject.__from_data__` (sceneobject.py lines 115-118): direct
deserialization of a scene object unconditionally raises, whatever the
data. -/
def SceneObject.from_data {α : Type} (_data : α) :
    Except SerializationError SceneObject :=
  .error .notPermitted

/-- `compas.itertools.pairwise`: consecutive pairs of a sequence. -/
def pairwise {α : Type} (l : List α) : List (α × α) := l.zip l.tail

/-- Modelled from the spec: the Polyhedron value container — "vertices and
faces lists with derived point/line accessors"; its own source is outside
this excerpt, only tests/compas/geometry/test_polyhedron.py is present. -/
structure Polyhedron where
  vertices : List (List ℤ)
  faces : List (List ℕ)
  name : String
deriving DecidableEq, Repr

/-- Modelled from the spec: "a Polyhedron's `points` equals `vertices`". -/
def Polyhedron.points (p : Polyhedron) : List (List ℤ) := p.vertices

/-- Modelled from the spec: a Polyhedron's `lines` "equals the consecutive
pairs of the vertex ring including the closing edge back to vertex 0",
i.e. `pairwise(vertices + vertices[:1])` as the test spells it. -/
def Polyhedron.lines (p : Polyhedron) : List (List ℤ × List ℤ) :=
  pairwise (p.vertices ++ p.vertices.take 1)

/-- The polyhedron of test_polyhedron.py lines 10-14. -/
def testPolyhedron : Polyhedron :=
  ⟨[[0, 0, 0], [1, 0, 0], [1, 1, 0], [0, 1, 0]], [[0, 1, 2, 3]], "Test Polyhedron"⟩

/-- A concrete item for instantiating scene objects. -/
def itemA : Item := ⟨"item-a", "guid-a"⟩

/-- Fields of a freshly constructed scene object in a given context, all
other constructor arguments at their defaults. -/
def fieldsWithContext (ctx : Option String) : SOFields :=
  SceneObject.init itemA none none 1 true none none ctx

/-- A childless scene object whose context is "Y". -/
def parentY : SceneObject := .mk (fieldsWithContext (some "Y")) []

/-- A childless scene object whose context is "X". -/
def childX : SceneObject := .mk (fieldsWithContext (some "X")) []

/-- A fresh scene object state with no context. -/
def emptyFields : SOFields := fieldsWithContext none

/-- The spec's derivation of the contrast color from a color: darkened by
50 percent when light, lightened by 50 percent when dark. -/
def computeContrastcolor (c : Color) : Color :=
  if c.is_light then c.darkened 50 else c.lightened 50

/-- A light color (all channels at 255). -/
def lightColor : Color := ⟨255, 255, 255⟩

/-- A dark color (all channels at 0). -/
def darkColor : Color := ⟨0, 0, 0⟩

/-- A scene object state whose color is light but whose contrast-color
cache was explicitly overridden through the `contrastcolor` setter. -/
def poisonedFields : SOFields :=
  (emptyFields.setColor lightColor).contrastcolorSet lightColor

theorem reduce_mul_eq_mul_prod (m : Transformation) (l : List Transformation) :
    reduce_mul m l = m * l.prod := by
  induction l generalizing m with
  | nil => simp [reduce_mul]
  | cons x xs ih => rw [reduce_mul, ih, List.prod_cons, mul_assoc]

theorem worldtransformation_eq (f : SOFields) (anc : List AncNode) :
    f.worldtransformation anc =
      ((collect_frame_stack anc).map Transformation.from_frame).reverse.prod *
        (f.transformation.getD Transformation.identity) := by
  unfold SOFields.worldtransformation
  rcases hrev : ((collect_frame_stack anc).map Transformation.from_frame).reverse with
    _ | ⟨m, rest⟩ <;>
    rcases ht : f.transformation with _ | t <;>
    simp [hrev, ht, reduce_mul_eq_mul_prod, Transformation.identity]

/-- C1: `worldtransformation` walks the ancestors from the parent upward,
stopping at the tree's root, collecting set frames; the collected frames,
converted to transformations, are composed outermost-first (the reverse of
collection order) and the product is right-multiplied by the object's own
transformation when set; with no collected frame and no own transformation
the result is the identity transformation. -/
theorem C1_worldtransformation (f : SOFields) (anc : List AncNode) :
    f.worldtransformation anc =
      ((collect_frame_stack anc).reverse.map Transformation.from_frame).prod *
        (f.transformation.getD Transformation.identity) ∧
    (collect_frame_stack anc = [] → f.transformation = none →
      f.worldtransformation anc = Transformation.identity) := by
  constructor
  · rw [worldtransformation_eq, List.map_reverse]
  · intro hc ht
    rw [worldtransformation_eq, hc, ht]
    simp [Transformation.identity]

/-- C1 witness: a scene object with no ancestors and no own transformation
has the identity world transformation. -/
theorem C1_worldtransformation_witness :
    emptyFields.worldtransformation [] = Transformation.identity :=
  (C1_worldtransformation emptyFields []).2 rfl rfl

/-- C2 counterexample: the context check of `add` is skipped for an
argument that is already a SceneObject — a parent with context "Y" accepts
a ready-made child with context "X", leaving the subtree non-uniform. -/
theorem C2_context_uniformity_counterexample :
    parentY.add (.sceneObject childX) =
      .ok (SceneObject.mk (fieldsWithContext (some "Y")) [childX], childX) ∧
    childX.fieldsOf.context ≠ parentY.fieldsOf.context :=
  ⟨rfl, by decide⟩

/-- C2 amended: context uniformity is enforced at `add` time only for raw
items: an explicitly supplied context differing from the parent's is
rejected, and any successfully constructed child carries the parent's
context; an argument that is already a SceneObject is attached without a
context check. -/
theorem C2_context_uniformity_amended (p : SceneObject) (it : Item)
    (kw : Option (Option String)) :
    (∀ ctx, kw = some ctx → ctx ≠ p.fieldsOf.context →
      p.add (.item it kw) = .error ⟨ctx, p.fieldsOf.context⟩) ∧
    (∀ q c, p.add (.item it kw) = .ok (q, c) →
      c.fieldsOf.context = p.fieldsOf.context) := by
  constructor
  · intro ctx hkw hne
    subst hkw
    simp [SceneObject.add, hne]
  · intro q c hok
    rcases kw with _ | ctx
    · simp only [SceneObject.add, Except.ok.injEq, Prod.mk.injEq] at hok
      rw [← hok.2]
      rfl
    · by_cases hc : ctx = p.fieldsOf.context
      · subst hc
        simp [SceneObject.add] at hok
        rw [← hok.2]
        rfl
      · simp [SceneObject.add, hc] at hok

/-- C2 witness: the amended claim at a parent with context "Y" — an
explicit context "X" in kwargs is rejected, and a child constructed by
`add` from a raw item carries the parent's context. -/
theorem C2_context_uniformity_amended_witness :
    parentY.add (.item itemA (some (some "X"))) =
      .error ⟨some "X", parentY.fieldsOf.context⟩ ∧
    (SceneObject.mk (fieldsWithContext (some "Y")) []).fieldsOf.context =
      parentY.fieldsOf.context :=
  ⟨(C2_context_uniformity_amended parentY itemA (some (some "X"))).1
      (some "X") rfl (by decide),
    (C2_context_uniformity_amended parentY itemA none).2
      (parentY.attach (.mk (fieldsWithContext (some "Y")) []))
      (.mk (fieldsWithContext (some "Y")) []) rfl⟩

/-- C3: on a parent whose context differs from an explicitly supplied
`context` keyword, `add` raises the context-mismatch error carrying both
context values, and the parent — children included — is left unchanged. -/
theorem C3_add_context_mismatch (p : SceneObject) (it : Item)
    (ctx : Option String) (h : ctx ≠ p.fieldsOf.context) :
    p.add (.item it (some ctx)) = .error ⟨ctx, p.fieldsOf.context⟩ ∧
    p.addOrKeep (.item it (some ctx)) = p := by
  have he : p.add (.item it (some ctx)) = .error ⟨ctx, p.fieldsOf.context⟩ := by
    simp [SceneObject.add, h]
  exact ⟨he, by simp [SceneObject.addOrKeep, he]⟩

/-- C3 witness: a parent with context "Y" rejects `add` with explicit
context "X" and keeps its state. -/
theorem C3_add_context_mismatch_witness :
    parentY.add (.item itemA (some (some "X"))) =
      .error ⟨some "X", parentY.fieldsOf.context⟩ ∧
    parentY.addOrKeep (.item itemA (some (some "X"))) = parentY :=
  C3_add_context_mismatch parentY itemA (some "X") (by decide)

/-- C4: after setting the color, the first `contrastcolor` read stores its
result in the cache, a second consecutive read returns the same value
without changing the state (no recomputation), and reassigning the color
empties the cache so that the next read recomputes the contrast color from
the new color. -/
theorem C4_contrastcolor_memoization (f : SOFields) (c c2 : Color) :
    (((f.setColor c).contrastcolorGet).2.contrastcolorGet).1 =
      ((f.setColor c).contrastcolorGet).1 ∧
    (((f.setColor c).contrastcolorGet).2.contrastcolorGet).2 =
      ((f.setColor c).contrastcolorGet).2 ∧
    ((f.setColor c).contrastcolorGet).2._contrastcolor =
      some ((f.setColor c).contrastcolorGet).1 ∧
    (((f.setColor c).contrastcolorGet).2.setColor c2)._contrastcolor = none ∧
    ((((f.setColor c).contrastcolorGet).2.setColor c2).contrastcolorGet).1 =
      computeContrastcolor c2 := by
  refine ⟨rfl, rfl, rfl, rfl, ?_⟩
  simp [SOFields.setColor, SOFields.contrastcolorGet, SOFields.colorGet,
    Color.coerce, computeContrastcolor]

/-- C5 counterexample: the `contrastcolor` setter can override the cache,
after which a scene object with a light color does not read back
`color.darkened(50)`. -/
theorem C5_contrastcolor_formula_counterexample :
    (poisonedFields.colorGet).is_light = true ∧
    (poisonedFields.contrastcolorGet).1 ≠ (poisonedFields.colorGet).darkened 50 := by
  decide

/-- C5 amended: for every scene object whose cached contrast color, when
set, matches the value derived from the current color (equivalently, the
cache has not been overridden with a foreign value through the
`contrastcolor` setter), reading `contrastcolor` yields
`color.darkened(50)` when the color is classified light and
`color.lightened(50)` when it is classified dark. -/
theorem C5_contrastcolor_formula (f : SOFields)
    (h : ∀ x, f._contrastcolor = some x → x = computeContrastcolor (f.colorGet)) :
    ((f.colorGet).is_light = true →
      (f.contrastcolorGet).1 = (f.colorGet).darkened 50) ∧
    ((f.colorGet).is_light = false →
      (f.contrastcolorGet).1 = (f.colorGet).lightened 50) := by
  rcases hc : f._contrastcolor with _ | x
  · constructor <;> intro hl <;> simp [SOFields.contrastcolorGet, hc, hl]
  · have hx := h x hc
    subst hx
    constructor <;> intro hl <;>
      simp [SOFields.contrastcolorGet, hc, computeContrastcolor, hl]

/-- C5 witness: a fresh scene object colored all-ones reads back the
darkened contrast color, one colored all-zeros the lightened one. -/
theorem C5_contrastcolor_formula_witness :
    ((emptyFields.setColor lightColor).colorGet).is_light = true ∧
    ((emptyFields.setColor lightColor).contrastcolorGet).1 =
      ((emptyFields.setColor lightColor).colorGet).darkened 50 ∧
    ((emptyFields.setColor darkColor).colorGet).is_light = false ∧
    ((emptyFields.setColor darkColor).contrastcolorGet).1 =
      ((emptyFields.setColor darkColor).colorGet).lightened 50 :=
  ⟨by decide,
    (C5_contrastcolor_formula (emptyFields.setColor lightColor)
      (fun x hx => by simp [SOFields.setColor] at hx)).1 (by decide),
    by decide,
    (C5_contrastcolor_formula (emptyFields.setColor darkColor)
      (fun x hx => by simp [SOFields.setColor] at hx)).2 (by decide)⟩

/-- C4 witness: after a first read and a color reassignment, the cache is
empty again. -/
theorem C4_contrastcolor_memoization_witness :
    (((emptyFields.setColor lightColor).contrastcolorGet).2.setColor
      darkColor)._contrastcolor = none :=
  (C4_contrastcolor_memoization emptyFields lightColor darkColor).2.2.2.1

/-- C6: direct deserialization of a scene object fails with the
serialization-not-permitted error, whatever the data. -/
theorem C6_from_data_not_permitted {α : Type} (d : α) :
    SceneObject.from_data d = .error SerializationError.notPermitted := rfl

/-- C6 witness: deserializing a concrete datum fails. -/
theorem C6_from_data_not_permitted_witness :
    SceneObject.from_data (0 : ℕ) = .error SerializationError.notPermitted :=
  C6_from_data_not_permitted 0

/-- C7: `clear` is idempotent on the observable state — after each of two
consecutive calls `guids` is empty, the second call leaves the state as
the first left it, and the second call hands the backend an empty handle
list (a no-op). -/
theorem C7_clear_idempotent (f : SOFields) :
    ((f.clear).1.clear).1 = (f.clear).1 ∧
    (f.clear).1.guids = [] ∧
    ((f.clear).1.clear).1.guids = [] ∧
    ((f.clear).1.clear).2 = [] :=
  ⟨rfl, rfl, rfl, rfl⟩

/-- C7 witness: after clearing an object that had drawn handles, `guids`
is empty. -/
theorem C7_clear_idempotent_witness :
    (((emptyFields.draw ["g1"]).clear).1).guids = [] :=
  (C7_clear_idempotent (emptyFields.draw ["g1"])).2.1

/-- C8: adding a child and then clearing the parent keeps the child in the
tree — `clear` resets exactly the parent's `_guids` field and leaves every
other field, the children sequence included, unchanged. -/
theorem C8_clear_keeps_children (p child : SceneObject) :
    p.add (.sceneObject child) = .ok (p.attach child, child) ∧
    ((p.attach child).clear).1 =
      SceneObject.mk { (p.attach child).fieldsOf with _guids := none }
        ((p.attach child).childrenOf) ∧
    child ∈ ((p.attach child).clear).1.childrenOf := by
  rcases p with ⟨fs, cs⟩
  refine ⟨rfl, rfl, ?_⟩
  simp [SceneObject.attach, SceneObject.clear, SOFields.clear,
    SceneObject.childrenOf]

/-- C8 witness: a concrete child added under a concrete parent survives
the parent's `clear`. -/
theorem C8_clear_keeps_children_witness :
    childX ∈ ((parentY.attach childX).clear).1.childrenOf :=
  (C8_clear_keeps_children parentY childX).2.2

/-- C9: the polyhedron over the unit-square vertex ring has `points` equal
to its vertices and `lines` equal to the consecutive vertex pairs of the
ring, closing edge back to vertex 0 included. -/
theorem C9_polyhedron_points_lines :
    testPolyhedron.points = [[0, 0, 0], [1, 0, 0], [1, 1, 0], [0, 1, 0]] ∧
    testPolyhedron.lines =
      [([0, 0, 0], [1, 0, 0]), ([1, 0, 0], [1, 1, 0]),
        ([1, 1, 0], [0, 1, 0]), ([0, 1, 0], [0, 0, 0])] :=
  ⟨rfl, rfl⟩

/-- C10: `guids` always yields a list — the empty list on a freshly
constructed object and after `clear`, the handles stored by the most
recent `draw` otherwise, normalizing the unset internal state to `[]`. -/
theorem C10_guids_normalized (f : SOFields) (it : Item) (ctx : Option String)
    (handles : List String) :
    (SceneObject.init it none none 1 true none none ctx).guids = [] ∧
    ((f.clear).1).guids = [] ∧
    (f.draw handles).guids = handles ∧
    f.guids = f._guids.getD [] :=
  ⟨rfl, rfl, rfl, rfl⟩

/-- C10 witness: after a concrete draw, `guids` returns the stored
handles. -/
theorem C10_guids_normalized_witness :
    (emptyFields.draw ["g1", "g2"]).guids = ["g1", "g2"] :=
  (C10_guids_normalized emptyFields itemA none ["g1", "g2"]).2.2.1

end Compas
